import Mathlib

/-!
Verification of the nutanix-exporter core against its specification.

The definitions below are a shallow embedding of the Go sources:
  internal/nutanix/nutanix.go, paging.go, exporter_health.go,
  cluster.go, hosts.go, vms.go and main.go.
Go float64 values are modelled as rationals (the values exercised here
are exact decimals), Go uint64 counters as naturals with explicit
wrap-around modulo 2^64, and Go durations as nonnegative nanosecond
counts (durations fed to the health tracker come from time.Since).
-/

namespace NutanixExporter

/-- A JSON-decoded Go `interface{}` value as seen by the value
normalizers: nil, float64, float32, int, int32, int64, string, or an
unsupported type. -/
inductive GoValue where
  | null
  | flt (x : ℚ)
  | flt32 (x : ℚ)
  | int (n : ℤ)
  | int32 (n : ℤ)
  | int64 (n : ℤ)
  | str (s : String)
  | other
  deriving DecidableEq

/-- Numeric value of a digit list, most significant first. -/
def digitsVal (cs : List Char) : ℕ :=
  cs.foldl (fun a c => 10 * a + (c.toNat - 48)) 0

/-- Models Go `strconv.ParseFloat` on the plain decimal fragment of its
grammar (optional sign, integer digits, optional fraction digits): the
only numeral shapes the exporter's stat values take.  Returns `none`
exactly when Go returns a parse error on such inputs. -/
def parseFloat (s : String) : Option ℚ :=
  let cs := s.toList
  let sign : ℚ := if cs.head? = some '-' then -1 else 1
  let rest := if cs.head? = some '-' ∨ cs.head? = some '+' then cs.tail else cs
  let intPart := rest.takeWhile Char.isDigit
  let afterInt := rest.dropWhile Char.isDigit
  if afterInt = [] then
    if intPart = [] then none else some (sign * (digitsVal intPart : ℚ))
  else if afterInt.head? = some '.' then
    let frac := afterInt.tail
    if frac.all Char.isDigit ∧ ¬(intPart = [] ∧ frac = []) then
      some (sign * ((digitsVal intPart : ℚ)
        + (digitsVal frac : ℚ) / (10 : ℚ) ^ frac.length))
    else none
  else none

/-- Embeds `Nutanix.valueToFloat64` (nutanix.go:320-349): nil yields
0.0, numeric values convert directly, strings go through ParseFloat
with 0.0 on parse error, and the default (unsupported-type) branch
yields 0.0. -/
def valueToFloat64 : GoValue → ℚ
  | .null => 0
  | .flt x => x
  | .flt32 x => x
  | .int n => (n : ℚ)
  | .int32 n => (n : ℚ)
  | .int64 n => (n : ℚ)
  | .str s =>
    match parseFloat s with
    | some v => v
    | none => 0
  | .other => 0

/-- Embeds `nutanixExporter.valueToFloat64` (paging.go:181-193): only
the float64 and string cases are handled, every other input (including
nil and integers) falls through to the zero initial value; the string
case discards the ParseFloat error, leaving 0. -/
def exporterValueToFloat64 : GoValue → ℚ
  | .flt x => x
  | .str s => (parseFloat s).getD 0
  | _ => 0

/-- One character of the two `strings.Replace(key, ".", "_", -1)` /
`strings.Replace(key, "-", "_", -1)` passes: `.` and `-` become `_`. -/
def replaceChar (c : Char) : Char :=
  if c = '.' then '_' else if c = '-' then '_' else c

/-- Embeds `nutanixExporter.normalizeKey` (paging.go:196-202): replace
every `.` and `-` with `_`, then lowercase the result.  Go's
`strings.ToLower` is modelled per character by `Char.toLower`, which
coincides with it on the basic-latin range the exporter's metric keys
are drawn from. -/
def normalizeKey (s : String) : String :=
  String.mk ((s.toList.map replaceChar).map Char.toLower)

/-! ## Health tracker (internal/nutanix/exporter_health.go) -/

/-- Modulus of Go's `uint64`. -/
def U64LIMIT : ℕ := 2 ^ 64

/-- Go `uint64` addition: wraps modulo `2^64`. -/
def add64 (a b : ℕ) : ℕ := (a + b) % U64LIMIT

/-- Go `duration / time.Microsecond` for the nonnegative durations
produced by `time.Since`: integer division of nanoseconds by 1000. -/
def durationToMicro (ns : ℕ) : ℕ := ns / 1000

/-- Embeds the `ExporterHealth` record (exporter_health.go:12-34): the
per-section monotonic `uint64` counters, `uint64` microsecond duration
totals, and the `int` active-collection count. -/
structure ExporterHealth where
  errConnTimeout : ℕ
  errCollectionStillRunning : ℕ
  errException : ℕ
  errDNSFailure : ℕ
  successDeviceCmd : ℕ
  failureDeviceCmd : ℕ
  totalPollCycles : ℕ
  successfulPCCallNoErrors : ℕ
  failedCollections : ℕ
  totalSuccessCmdExecDurationUS : ℕ
  totalFailureCmdExecDurationUS : ℕ
  totalSuccessCollectionDurationUS : ℕ
  totalFailureCollectionDurationUS : ℕ
  activeCollections : ℤ
  deriving DecidableEq

/-- The zero-valued record `getHealth` creates on first reference to a
section (exporter_health.go:42-51). -/
def freshHealth : ExporterHealth :=
  ⟨0, 0, 0, 0, 0, 0, 0, 0, 0, 0, 0, 0, 0, 0⟩

/-- Embeds `MarkCollectionStart` (exporter_health.go:140-150): when a
collection is already active the overlap counter is bumped and `false`
is returned; otherwise the active count is incremented and `true` is
returned. -/
def markCollectionStart (h : ExporterHealth) : Bool × ExporterHealth :=
  if h.activeCollections > 0 then
    (false,
      { h with errCollectionStillRunning := add64 h.errCollectionStillRunning 1 })
  else
    (true, { h with activeCollections := h.activeCollections + 1 })

/-- Embeds `MarkCollectionEnd` (exporter_health.go:152-166): adds the
duration (in microseconds) to the success or failure collection
accumulator, bumps the matching outcome counter, and decrements the
active count floored at zero.  `totalPollCycles` is not touched. -/
def markCollectionEnd (h : ExporterHealth) (success : Bool) (durNS : ℕ) :
    ExporterHealth :=
  let h' :=
    if success then
      { h with
        totalSuccessCollectionDurationUS :=
          add64 h.totalSuccessCollectionDurationUS (durationToMicro durNS)
        successfulPCCallNoErrors := add64 h.successfulPCCallNoErrors 1 }
    else
      { h with
        totalFailureCollectionDurationUS :=
          add64 h.totalFailureCollectionDurationUS (durationToMicro durNS)
        failedCollections := add64 h.failedCollections 1 }
  if h'.activeCollections > 0 then
    { h' with activeCollections := h'.activeCollections - 1 }
  else h'

/-- Embeds `MarkCmdSuccess` (exporter_health.go:168-174). -/
def markCmdSuccess (h : ExporterHealth) (durNS : ℕ) : ExporterHealth :=
  { h with
    successDeviceCmd := add64 h.successDeviceCmd 1
    totalSuccessCmdExecDurationUS :=
      add64 h.totalSuccessCmdExecDurationUS (durationToMicro durNS) }

/-- Embeds `MarkCmdFailure` (exporter_health.go:176-182). -/
def markCmdFailure (h : ExporterHealth) (durNS : ℕ) : ExporterHealth :=
  { h with
    failureDeviceCmd := add64 h.failureDeviceCmd 1
    totalFailureCmdExecDurationUS :=
      add64 h.totalFailureCmdExecDurationUS (durationToMicro durNS) }

/-- Embeds `IncConnTimeout` (exporter_health.go:184-189). -/
def incConnTimeout (h : ExporterHealth) : ExporterHealth :=
  { h with errConnTimeout := add64 h.errConnTimeout 1 }

/-- Embeds `IncDNSFailure` (exporter_health.go:190-195). -/
def incDNSFailure (h : ExporterHealth) : ExporterHealth :=
  { h with errDNSFailure := add64 h.errDNSFailure 1 }

/-- Embeds `IncException` (exporter_health.go:196-201). -/
def incException (h : ExporterHealth) : ExporterHealth :=
  { h with errException := add64 h.errException 1 }

/-! ## Upstream client (internal/nutanix/nutanix.go) -/

/-- The settled outcome of the transport layer and upstream for one
HTTP request issued by `makeRequestWithParams`. -/
inductive TransportOutcome where
  | timeout
  | dnsFailure
  | otherTransportError
  | httpStatus (code : ℕ)
  deriving DecidableEq

/-- Embeds the result path of `makeRequestWithParams`
(nutanix.go:359-399): any transport error is returned to the caller as
an error, a response with status `≥ 400` becomes the error
`error status received`, any other status is returned as the
response. -/
def makeRequestResult : TransportOutcome → Except String ℕ
  | .timeout => .error "request error"
  | .dnsFailure => .error "request error"
  | .otherTransportError => .error "request error"
  | .httpStatus code =>
    if code ≥ 400 then .error "error status received" else .ok code

/-- Embeds the health-tracking effect of `makeRequestWithParams`
(nutanix.go:359-399): the function body contains no call into the
health tracker, so the health record is left unchanged for every
outcome. -/
def makeRequestHealthEffect (_o : TransportOutcome) (h : ExporterHealth) :
    ExporterHealth := h

/-- Modelled from the spec: the failure classification the spec (and
the repository's own client tests) attribute to the request path — a
timeout increments the connection-timeout counter, a DNS failure the
DNS counter, any other transport error the generic-exception counter,
and the wall-clock duration is added to the success accumulator on
success (status < 400) and to the failure accumulator otherwise.  This
classification is absent from `makeRequestWithParams` in the source. -/
def specRequestHealthEffect (o : TransportOutcome) (durNS : ℕ)
    (h : ExporterHealth) : ExporterHealth :=
  match o with
  | .timeout => markCmdFailure (incConnTimeout h) durNS
  | .dnsFailure => markCmdFailure (incDNSFailure h) durNS
  | .otherTransportError => markCmdFailure (incException h) durNS
  | .httpStatus code =>
    if code ≥ 400 then markCmdFailure h durNS else markCmdSuccess h durNS

/-- Embeds `NewNutanix` (nutanix.go:401-413) together with the
`Nutanix` struct (nutanix.go:38-43). -/
structure NutanixClient where
  url : String
  username : String
  password : String
  maxParallelRequests : ℤ
  deriving DecidableEq

/-- `MAX_PARALLEL_REQUESTS_DEFAULT` (nutanix.go:30). -/
def MAX_PARALLEL_REQUESTS_DEFAULT : ℤ := 10

/-- Embeds `NewNutanix` (nutanix.go:401-413): the field is taken from
the argument, then replaced by the default when it is `≤ 0`. -/
def NewNutanix (url username password : String) (maxParallelReq : ℤ) :
    NutanixClient :=
  let nu : NutanixClient := ⟨url, username, password, maxParallelReq⟩
  if nu.maxParallelRequests ≤ 0 then
    { nu with maxParallelRequests := MAX_PARALLEL_REQUESTS_DEFAULT }
  else nu

/-- Embeds the semaphore sizing of `HostsExporter.DescribeNicsParallel`
(hosts.go:310-325): the buffered channel used as a counting semaphore
for the per-host NIC fan-out is created with capacity
`e.api.maxParallelRequests`. -/
def nicSemaphoreCapacity (c : NutanixClient) : ℤ :=
  c.maxParallelRequests

/-! ## Calculated write-I/O-size stat (cluster.go, hosts.go, vms.go) -/

/-- A Go `map[string]interface` stats map, as looked up by the
calculated-stat code: a partial map from stat key to JSON value. -/
def StatsMap : Type := String → Option GoValue

/-- Embeds the write-I/O-size part of `ClusterExporter.addCalculatedStats`
(cluster.go:181-194): the raw values (0 when the key is absent) are
subtracted directly, with no flooring. -/
def clusterWriteIoSize (stats : StatsMap) : ℚ :=
  let totalSize : ℚ :=
    match stats "controller_total_io_size_kbytes" with
    | some val => exporterValueToFloat64 val
    | none => 0
  let readSize : ℚ :=
    match stats "controller_total_read_io_size_kbytes" with
    | some val => exporterValueToFloat64 val
    | none => 0
  totalSize - readSize

/-- Embeds the write-I/O-size part of `HostsExporter.addCalculatedStats`
(hosts.go:123-145): each raw value is used only when it is `> 0`,
leaving the zero initial value otherwise (flooring at zero), then the
floored values are subtracted. -/
def hostsWriteIoSize (stats : StatsMap) : ℚ :=
  let total_size : ℚ :=
    match stats "controller_total_io_size_kbytes" with
    | some val =>
      let v := exporterValueToFloat64 val
      if v > 0 then v else 0
    | none => 0
  let read_size : ℚ :=
    match stats "controller_total_read_io_size_kbytes" with
    | some val =>
      let v := exporterValueToFloat64 val
      if v > 0 then v else 0
    | none => 0
  total_size - read_size

/-- Embeds the write-I/O-size part of
`VirtualDisksExporter.addCalculatedStats` (vms.go:427-469, lines
452-468): identical floored-at-zero subtraction as the hosts
collector. -/
def virtualDisksWriteIoSize (stats : StatsMap) : ℚ :=
  let total_size : ℚ :=
    match stats "controller_total_io_size_kbytes" with
    | some val =>
      let v := exporterValueToFloat64 val
      if v > 0 then v else 0
    | none => 0
  let read_size : ℚ :=
    match stats "controller_total_read_io_size_kbytes" with
    | some val =>
      let v := exporterValueToFloat64 val
      if v > 0 then v else 0
    | none => 0
  total_size - read_size

/-- A stats map holding only the two controller I/O size keys. -/
def ioStats (total read : GoValue) : StatsMap := fun k =>
  if k = "controller_total_io_size_kbytes" then some total
  else if k = "controller_total_read_io_size_kbytes" then some read
  else none

/-! ## Pagination helper (internal/nutanix/paging.go) -/

/-- The `count` default of `fetchAllPagesV2` (paging.go:43-46):
`url.Values.Get` yields the empty string when the parameter is unset,
in which case the page size is set to 100. -/
def withDefaultCount (count : String) : String :=
  if count = "" then "100" else count

/-- v2 response metadata as consumed by the paging loop
(paging.go:10-19): `end_index` and `grand_total_entities`. -/
structure PageMeta where
  endIndex : ℤ
  grandTotal : ℤ
  deriving DecidableEq

/-- One decoded page body: the `entities` field (absent or non-list
collapses to `none`, both break the loop identically) and the
`metadata` field. -/
structure PageResponse (α : Type) where
  entities : Option (List α)
  metadata : Option PageMeta

/-- Embeds the loop of `fetchAllPagesV2` (paging.go:48-92).  `upstream`
maps a page number to its decoded body; `fuel` bounds the recursion (Go
loops unboundedly; every theorem below instantiates `fuel` above the
number of pages consumed).  Returns the accumulated entities together
with the list of page numbers requested, in request order. -/
def fetchPagesLoop {α : Type} (upstream : ℕ → PageResponse α) :
    ℕ → ℕ → List α → List ℕ → List α × List ℕ
  | 0, _page, acc, reqs => (acc, reqs)
  | fuel + 1, page, acc, reqs =>
    let r := upstream page
    let reqs' := reqs ++ [page]
    match r.entities with
    | none => (acc, reqs')
    | some es =>
      let acc' := acc ++ es
      match r.metadata with
      | none => (acc', reqs')
      | some m =>
        if m.endIndex ≥ m.grandTotal then (acc', reqs')
        else fetchPagesLoop upstream fuel (page + 1) acc' reqs'

/-- Embeds `fetchAllPagesV2` (paging.go:39-93): pages are requested
starting from page 1 with an empty accumulator. -/
def fetchAllPagesV2 {α : Type} (upstream : ℕ → PageResponse α)
    (fuel : ℕ) : List α × List ℕ :=
  fetchPagesLoop upstream fuel 1 [] []

/-- The two-page upstream of the spec's pagination scenario: page 1
returns two entities with `end_index = 2 < grand_total_entities = 3`,
page 2 returns one entity with `end_index = 3`. -/
def mockUpstream : ℕ → PageResponse ℕ := fun page =>
  if page = 1 then ⟨some [1, 2], some ⟨2, 3⟩⟩
  else if page = 2 then ⟨some [3], some ⟨3, 3⟩⟩
  else ⟨none, none⟩

/-! ## The `/metrics` handler (main.go:96-282) -/

/-- The collectors the handler can register on the per-request
registry. -/
inductive CollectorKind where
  | exporterHealth
  | storageContainers
  | hosts
  | cluster
  | vms
  | snapshots
  | virtualDisks
  deriving DecidableEq

/-- What the handler sends back: the HTTP status, whether a metrics
body was rendered at all, the collectors whose families appear in it,
and the section label carried by the health families. -/
structure ScrapeResponse where
  status : ℕ
  bodyWritten : Bool
  registered : List CollectorKind
  healthSectionLabel : String
  deriving DecidableEq

/-- Embeds the `checkCollect` closure (main.go:240-243): a feature is
collected unless its flag is present and false. -/
def checkCollect (c : String → Option Bool) (f : String) : Bool :=
  match c f with
  | none => true
  | some v => v

/-- Embeds the `/metrics` handler (main.go:96-282) for one section.
`sectionKnown` is the config lookup result, `confHost` the configured
host URL (used as the health section key when the section is known,
main.go:133), `sectionName` the query parameter (the fallback key,
main.go:146).  When `MarkCollectionStart` returns false the handler
returns at once, writing nothing (main.go:153-158); otherwise the
deferred `MarkCollectionEnd` runs with the wall-clock duration, the
health collector is always registered, and entity collectors are added
only when the section is known and `health` is not `true`
(main.go:214-269). -/
def handleMetrics (sectionKnown healthOnly : Bool)
    (sectionName confHost : String) (collect : String → Option Bool)
    (h : ExporterHealth) (durNS : ℕ) : ScrapeResponse × ExporterHealth :=
  let key := if sectionKnown then confHost else sectionName
  let started := markCollectionStart h
  if started.1 then
    let hEnd := markCollectionEnd started.2 true durNS
    if healthOnly then
      (⟨200, true, [.exporterHealth], key⟩, hEnd)
    else if ¬sectionKnown then
      (⟨200, true, [.exporterHealth], key⟩, hEnd)
    else
      let ents : List CollectorKind :=
        (if checkCollect collect "storage_containers"
          then [.storageContainers] else [])
        ++ (if checkCollect collect "hosts" then [.hosts] else [])
        ++ (if checkCollect collect "cluster" then [.cluster] else [])
        ++ (if checkCollect collect "vms" then [.vms] else [])
        ++ (if checkCollect collect "snapshots" then [.snapshots] else [])
        ++ (if checkCollect collect "virtual_disks"
          then [.virtualDisks] else [])
      (⟨200, true, .exporterHealth :: ents, key⟩, hEnd)
  else
    (⟨200, false, [], key⟩, started.2)

/-! ## Helper lemmas for the key normalizer -/

theorem char_toNat_ofNat_valid {n : ℕ} (h : n.isValidChar) :
    (Char.ofNat n).toNat = n := by
  unfold Char.ofNat
  rw [dif_pos h]
  simp [Char.ofNatAux, Char.toNat, UInt32.toNat]

theorem char_toLower_eq_of_upper (c : Char)
    (h : 65 ≤ c.toNat ∧ c.toNat ≤ 90) :
    Char.toLower c = Char.ofNat (c.toNat + 32) := by
  unfold Char.toLower
  rw [if_pos]
  exact ⟨h.1, h.2⟩

theorem char_toLower_eq_self_of_not_upper (c : Char)
    (h : ¬(65 ≤ c.toNat ∧ c.toNat ≤ 90)) :
    Char.toLower c = c := by
  unfold Char.toLower
  rw [if_neg]
  exact h

theorem char_toLower_eq_self_or_range (c : Char) :
    Char.toLower c = c
      ∨ (97 ≤ (Char.toLower c).toNat ∧ (Char.toLower c).toNat ≤ 122) := by
  by_cases h : 65 ≤ c.toNat ∧ c.toNat ≤ 90
  · right
    rw [char_toLower_eq_of_upper c h,
      char_toNat_ofNat_valid (Or.inl (by omega))]
    omega
  · left
    exact char_toLower_eq_self_of_not_upper c h

theorem char_toLower_idem (c : Char) :
    Char.toLower (Char.toLower c) = Char.toLower c := by
  rcases char_toLower_eq_self_or_range c with h | ⟨h1, h2⟩
  · rw [h]; exact h
  · exact char_toLower_eq_self_of_not_upper _ (by omega)

theorem char_toLower_not_special (c : Char) (hd : c ≠ '.') (hm : c ≠ '-') :
    Char.toLower c ≠ '.' ∧ Char.toLower c ≠ '-' := by
  rcases char_toLower_eq_self_or_range c with h | ⟨h1, h2⟩
  · rw [h]; exact ⟨hd, hm⟩
  · constructor
    · intro he; rw [he] at h1; exact absurd h1 (by decide)
    · intro he; rw [he] at h1; exact absurd h1 (by decide)

theorem replaceChar_not_special (c : Char) :
    replaceChar c ≠ '.' ∧ replaceChar c ≠ '-' := by
  unfold replaceChar
  split_ifs with h1 h2
  · exact ⟨by decide, by decide⟩
  · exact ⟨by decide, by decide⟩
  · exact ⟨h1, h2⟩

theorem replaceChar_fix (d : Char) (hd : d ≠ '.') (hm : d ≠ '-') :
    replaceChar d = d := by
  unfold replaceChar
  rw [if_neg hd, if_neg hm]

theorem normalizeChar_idem (c : Char) :
    Char.toLower (replaceChar (Char.toLower (replaceChar c)))
      = Char.toLower (replaceChar c) := by
  obtain ⟨hd, hm⟩ := replaceChar_not_special c
  obtain ⟨hd2, hm2⟩ := char_toLower_not_special _ hd hm
  rw [replaceChar_fix _ hd2 hm2, char_toLower_idem]

theorem normalizeKey_idem (s : String) :
    normalizeKey (normalizeKey s) = normalizeKey s := by
  unfold normalizeKey
  apply congrArg String.mk
  show ((((s.toList.map replaceChar).map Char.toLower).map
    replaceChar).map Char.toLower) = _
  rw [List.map_map, List.map_map, List.map_map, List.map_map]
  refine List.map_congr_left fun c _ => ?_
  simp only [Function.comp_apply]
  exact normalizeChar_idem c

/-! ## Claim theorems -/

/-- Claim C1 (evidence for the divergence): `valueToFloat64` returns
plain `0.0` — not a sentinel distinct from zero — for nil, for a
non-numeric string, and for an unsupported type, so its result on an
unavailable value coincides with a genuine zero stat and in particular
never equals the `-1` "stat not available" sentinel the collectors
test for; numeric inputs do convert exactly
(`valueToFloat64("42.5") = 42.5`). -/
theorem valueToFloat64_unavailable_is_zero :
    valueToFloat64 .null = 0
    ∧ valueToFloat64 (.str "abc") = 0
    ∧ valueToFloat64 .other = 0
    ∧ valueToFloat64 .null = valueToFloat64 (.flt 0)
    ∧ valueToFloat64 .null ≠ -1
    ∧ valueToFloat64 (.str "42.5") = 85 / 2
    ∧ valueToFloat64 (.int 7) = 7
    ∧ exporterValueToFloat64 .null = 0
    ∧ exporterValueToFloat64 (.str "42.5") = 85 / 2 := by
  refine ⟨rfl, ?_, rfl, ?_, ?_, ?_, ?_, rfl, ?_⟩
  · simp +decide [valueToFloat64, parseFloat, String.toList]
  · norm_num [valueToFloat64]
  · norm_num [valueToFloat64]
  · simp +decide [valueToFloat64, parseFloat, String.toList, digitsVal]
    norm_num
  · norm_num [valueToFloat64]
  · simp +decide [exporterValueToFloat64, parseFloat, String.toList, digitsVal]
    norm_num

/-- Claim C9: `normalizeKey` is idempotent —
`normalizeKey (normalizeKey x) = normalizeKey x` for every string `x` —
and `normalizeKey "storage.capacity_bytes" = "storage_capacity_bytes"`. -/
theorem normalizeKey_idempotent_and_example :
    (∀ s : String, normalizeKey (normalizeKey s) = normalizeKey s)
    ∧ normalizeKey "storage.capacity_bytes" = "storage_capacity_bytes" :=
  ⟨normalizeKey_idem, by decide⟩

/-- Claim C2 counterexample: the cluster collector's calculated
write-I/O-size does not floor negative raw inputs at zero — with
`controller_total_io_size_kbytes = 100` and
`controller_total_read_io_size_kbytes = -40` it yields `140`, not the
`100` the claim requires, so the flooring is not applied identically
across the cluster, hosts and virtual-disk collectors. -/
theorem clusterWriteIoSize_no_floor_counterexample :
    clusterWriteIoSize (ioStats (.flt 100) (.flt (-40))) = 140
    ∧ (140 : ℚ) ≠ 100 := by
  constructor
  · simp +decide only [clusterWriteIoSize, ioStats, exporterValueToFloat64]
    norm_num
  · norm_num

/-- Claim C2 as amended: the hosts and virtual-disk collectors floor
both raw inputs at zero before subtracting (100/40 gives 60, a
negative raw read gives 100) and compute the stat identically; the
cluster collector subtracts the raw values without flooring, so a
negative raw read gives 140 there. -/
theorem writeIoSize_floor_per_collector :
    hostsWriteIoSize (ioStats (.flt 100) (.flt 40)) = 60
    ∧ virtualDisksWriteIoSize (ioStats (.flt 100) (.flt 40)) = 60
    ∧ clusterWriteIoSize (ioStats (.flt 100) (.flt 40)) = 60
    ∧ hostsWriteIoSize (ioStats (.flt 100) (.flt (-40))) = 100
    ∧ virtualDisksWriteIoSize (ioStats (.flt 100) (.flt (-40))) = 100
    ∧ clusterWriteIoSize (ioStats (.flt 100) (.flt (-40))) = 140
    ∧ (∀ stats : StatsMap,
        hostsWriteIoSize stats = virtualDisksWriteIoSize stats) := by
  refine ⟨?_, ?_, ?_, ?_, ?_, ?_, fun _ => rfl⟩ <;>
    · simp +decide only [hostsWriteIoSize, virtualDisksWriteIoSize,
        clusterWriteIoSize, ioStats, exporterValueToFloat64]
      norm_num

/-- A concrete health record with a nonzero poll-cycle count and one
active collection, used to exercise `markCollectionEnd`. -/
def sampleActiveHealth : ExporterHealth :=
  { freshHealth with totalPollCycles := 5, activeCollections := 1 }

/-- Claim C3 counterexample: `markCollectionEnd(S, true, d)` does not
increase the poll-cycle counter — on a record with
`totalPollCycles = 5` it leaves the counter at 5 (the counter is only
advanced by the periodic health ticker; the failure path leaves it
unchanged too). -/
theorem markCollectionEnd_pollCycles_unchanged_counterexample :
    (markCollectionEnd sampleActiveHealth true 2000000).totalPollCycles = 5
    ∧ (markCollectionEnd sampleActiveHealth false 2000000).totalPollCycles = 5
    ∧ sampleActiveHealth.totalPollCycles = 5 := by
  refine ⟨?_, ?_, rfl⟩ <;> decide

/-- Claim C3 as amended: for every prior tracker state (absent `uint64`
wrap-around), `markCollectionEnd(S, true, d)` increases the
success-collection-duration accumulator by exactly `d` converted to
microseconds and increments the successful-collections counter by
exactly 1, leaving the poll-cycle counter unchanged; the failure path
symmetrically adds `d` to the failure accumulator and increments the
failed-collections counter, also leaving the poll-cycle counter
unchanged. -/
theorem markCollectionEnd_accumulators (h : ExporterHealth) (d : ℕ)
    (h1 : h.totalSuccessCollectionDurationUS + durationToMicro d < U64LIMIT)
    (h2 : h.successfulPCCallNoErrors + 1 < U64LIMIT)
    (h3 : h.totalFailureCollectionDurationUS + durationToMicro d < U64LIMIT)
    (h4 : h.failedCollections + 1 < U64LIMIT) :
    (markCollectionEnd h true d).totalSuccessCollectionDurationUS
        = h.totalSuccessCollectionDurationUS + durationToMicro d
    ∧ (markCollectionEnd h true d).successfulPCCallNoErrors
        = h.successfulPCCallNoErrors + 1
    ∧ (markCollectionEnd h true d).totalPollCycles = h.totalPollCycles
    ∧ (markCollectionEnd h false d).totalFailureCollectionDurationUS
        = h.totalFailureCollectionDurationUS + durationToMicro d
    ∧ (markCollectionEnd h false d).failedCollections
        = h.failedCollections + 1
    ∧ (markCollectionEnd h false d).totalPollCycles = h.totalPollCycles := by
  refine ⟨?_, ?_, ?_, ?_, ?_, ?_⟩ <;>
    simp [markCollectionEnd, add64, Nat.mod_eq_of_lt, h1, h2, h3, h4,
      apply_ite ExporterHealth.totalSuccessCollectionDurationUS,
      apply_ite ExporterHealth.successfulPCCallNoErrors,
      apply_ite ExporterHealth.totalPollCycles,
      apply_ite ExporterHealth.totalFailureCollectionDurationUS,
      apply_ite ExporterHealth.failedCollections]

/-- Witness for the amended claim C3 at a concrete state and duration:
2 ms converts to 2000 microseconds and each counter moves by exactly
one. -/
theorem markCollectionEnd_accumulators_witness :
    (markCollectionEnd sampleActiveHealth true 2000000).totalSuccessCollectionDurationUS
        = sampleActiveHealth.totalSuccessCollectionDurationUS + durationToMicro 2000000
    ∧ (markCollectionEnd sampleActiveHealth true 2000000).successfulPCCallNoErrors
        = sampleActiveHealth.successfulPCCallNoErrors + 1
    ∧ (markCollectionEnd sampleActiveHealth true 2000000).totalPollCycles
        = sampleActiveHealth.totalPollCycles
    ∧ (markCollectionEnd sampleActiveHealth false 2000000).totalFailureCollectionDurationUS
        = sampleActiveHealth.totalFailureCollectionDurationUS + durationToMicro 2000000
    ∧ (markCollectionEnd sampleActiveHealth false 2000000).failedCollections
        = sampleActiveHealth.failedCollections + 1
    ∧ (markCollectionEnd sampleActiveHealth false 2000000).totalPollCycles
        = sampleActiveHealth.totalPollCycles :=
  markCollectionEnd_accumulators sampleActiveHealth 2000000
    (by decide) (by decide) (by decide) (by decide)

/-- Claim C5: starting from a state with no active collection, calling
`markCollectionStart` twice with no intervening `markCollectionEnd`
returns `true` then `false`, increments the overlap-error counter by
exactly one (absent `uint64` wrap-around), and leaves exactly one
collection active. -/
theorem markCollectionStart_twice (h : ExporterHealth)
    (h0 : h.activeCollections = 0)
    (hof : h.errCollectionStillRunning + 1 < U64LIMIT) :
    (markCollectionStart h).1 = true
    ∧ (markCollectionStart (markCollectionStart h).2).1 = false
    ∧ (markCollectionStart (markCollectionStart h).2).2.errCollectionStillRunning
        = h.errCollectionStillRunning + 1
    ∧ (markCollectionStart (markCollectionStart h).2).2.activeCollections
        = 1 := by
  refine ⟨?_, ?_, ?_, ?_⟩ <;>
    simp [markCollectionStart, h0, add64, Nat.mod_eq_of_lt hof]

/-- Witness for claim C5 starting from the zero-valued record. -/
theorem markCollectionStart_twice_witness :
    (markCollectionStart freshHealth).1 = true
    ∧ (markCollectionStart (markCollectionStart freshHealth).2).1 = false
    ∧ (markCollectionStart (markCollectionStart freshHealth).2).2.errCollectionStillRunning
        = freshHealth.errCollectionStillRunning + 1
    ∧ (markCollectionStart (markCollectionStart freshHealth).2).2.activeCollections
        = 1 :=
  markCollectionStart_twice freshHealth (by decide) (by decide)

/-- Claim C4 (evidence for the divergence): `makeRequestWithParams`
performs no failure classification at all — for every transport
outcome it leaves the health record untouched, so a DNS failure leaves
the DNS-failure counter at zero and no duration is accumulated, while
the classification the spec (and the repository's own client tests)
describe, `specRequestHealthEffect`, does change the record. -/
theorem makeRequest_no_health_classification :
    makeRequestHealthEffect .dnsFailure freshHealth = freshHealth
    ∧ (makeRequestHealthEffect .dnsFailure freshHealth).errDNSFailure = 0
    ∧ makeRequestHealthEffect .timeout freshHealth = freshHealth
    ∧ makeRequestHealthEffect .otherTransportError freshHealth = freshHealth
    ∧ makeRequestHealthEffect (.httpStatus 500) freshHealth = freshHealth
    ∧ makeRequestResult (.httpStatus 500) = .error "error status received"
    ∧ makeRequestResult .dnsFailure = .error "request error"
    ∧ (specRequestHealthEffect .dnsFailure 1000000 freshHealth).errDNSFailure
        = 1
    ∧ (specRequestHealthEffect .dnsFailure 1000000 freshHealth).totalFailureCmdExecDurationUS
        = 1000 := by
  refine ⟨rfl, rfl, rfl, rfl, rfl, ?_, rfl, ?_, ?_⟩
  · simp [makeRequestResult]
  · decide
  · decide

/-- A health record with one collection already active, the state seen
by the second of two overlapping scrapes. -/
def busyHealth : ExporterHealth :=
  { freshHealth with activeCollections := 1 }

/-- Claim C6 counterexample: when a collection for the section is
already active, the second scrape does not proceed with its own
collection — the handler increments the overlap counter and returns at
once, registering no collector and writing no metrics body. -/
theorem overlap_second_request_counterexample :
    (handleMetrics true false "default" "https://host" (fun _ => none)
      busyHealth 1000).1.bodyWritten = false
    ∧ (handleMetrics true false "default" "https://host" (fun _ => none)
      busyHealth 1000).1.registered = []
    ∧ (handleMetrics true false "default" "https://host" (fun _ => none)
      busyHealth 1000).2.errCollectionStillRunning = 1 := by
  refine ⟨?_, ?_, ?_⟩ <;> decide

/-- Claim C6 as amended: the second of two overlapping scrapes for the
same section is not blocked, but it is rejected at the health-tracking
level — the overlap counter is incremented by one (absent `uint64`
wrap-around) — and the handler then returns immediately with an empty
200 response: no collector is registered, no metrics body is written,
and no collection end is recorded. -/
theorem overlap_second_request_rejected (sk ho : Bool)
    (sn ch : String) (collect : String → Option Bool)
    (h : ExporterHealth) (d : ℕ)
    (hActive : h.activeCollections > 0)
    (hof : h.errCollectionStillRunning + 1 < U64LIMIT) :
    handleMetrics sk ho sn ch collect h d
      = (⟨200, false, [], if sk then ch else sn⟩,
        { h with errCollectionStillRunning
            := h.errCollectionStillRunning + 1 }) := by
  simp [handleMetrics, markCollectionStart, hActive, add64,
    Nat.mod_eq_of_lt hof]

/-- Witness for the amended claim C6 at a concrete overlapping state. -/
theorem overlap_second_request_rejected_witness :
    handleMetrics true false "default" "https://host" (fun _ => none)
      busyHealth 1000
      = (⟨200, false, [], "https://host"⟩,
        { busyHealth with errCollectionStillRunning
            := busyHealth.errCollectionStillRunning + 1 }) :=
  overlap_second_request_rejected true false "default" "https://host"
    (fun _ => none) busyHealth 1000 (by decide) (by decide)

/-- Claim C7: `fetchAllPagesV2` defaults the page size to 100, walks
pages from 1, accumulates entities in page order, and on the spec's
two-page mock returns exactly the three entities in order using
exactly two requests; a page lacking its `entities` field ends the
walk with what was already accumulated, a page lacking `metadata` ends
it after taking that page's entities, and a page whose metadata
reports `end_index >= grand_total_entities` is the last one — none of
these is an error. -/
theorem fetchAllPagesV2_paging :
    withDefaultCount "" = "100"
    ∧ fetchAllPagesV2 mockUpstream 10 = ([1, 2, 3], [1, 2])
    ∧ (∀ (u : ℕ → PageResponse ℕ) (fuel page : ℕ) (acc reqs : List ℕ),
        (u page).entities = none →
        fetchPagesLoop u (fuel + 1) page acc reqs = (acc, reqs ++ [page]))
    ∧ (∀ (u : ℕ → PageResponse ℕ) (fuel page : ℕ) (acc reqs es : List ℕ),
        (u page).entities = some es → (u page).metadata = none →
        fetchPagesLoop u (fuel + 1) page acc reqs
          = (acc ++ es, reqs ++ [page]))
    ∧ (∀ (u : ℕ → PageResponse ℕ) (fuel page : ℕ) (acc reqs es : List ℕ)
        (m : PageMeta),
        (u page).entities = some es → (u page).metadata = some m →
        m.endIndex ≥ m.grandTotal →
        fetchPagesLoop u (fuel + 1) page acc reqs
          = (acc ++ es, reqs ++ [page])) := by
  refine ⟨rfl, by decide, ?_, ?_, ?_⟩
  · intro u fuel page acc reqs he
    simp [fetchPagesLoop, he]
  · intro u fuel page acc reqs es he hm
    simp [fetchPagesLoop, he, hm]
  · intro u fuel page acc reqs es m he hm hend
    simp [fetchPagesLoop, he, hm, hend]

/-- Witness for claim C7: each early-termination hypothesis discharged
at a concrete single-page upstream. -/
theorem fetchAllPagesV2_paging_witness :
    fetchPagesLoop (fun _ => (⟨none, none⟩ : PageResponse ℕ)) 1 1 [] []
      = ([], [1])
    ∧ fetchPagesLoop (fun _ => (⟨some [7], none⟩ : PageResponse ℕ)) 1 1 [] []
      = ([7], [1])
    ∧ fetchPagesLoop
        (fun _ => (⟨some [7], some ⟨3, 3⟩⟩ : PageResponse ℕ)) 1 1 [] []
      = ([7], [1]) :=
  ⟨fetchAllPagesV2_paging.2.2.1 _ 0 1 [] [] rfl,
    fetchAllPagesV2_paging.2.2.2.1 _ 0 1 [] [] [7] rfl rfl,
    fetchAllPagesV2_paging.2.2.2.2 _ 0 1 [] [] [7] ⟨3, 3⟩ rfl rfl
      (by decide)⟩

/-- Claim C8: a scrape whose section names no configured section still
gets an HTTP 200 response whose body carries only the health families,
labeled with the requested section name, and no entity collectors —
for both values of the `health` parameter (provided the scrape
actually starts, i.e. no collection is already active). -/
theorem unknown_section_health_only (ho : Bool) (sn ch : String)
    (collect : String → Option Bool) (h : ExporterHealth) (d : ℕ)
    (h0 : h.activeCollections = 0) :
    (handleMetrics false ho sn ch collect h d).1
      = ⟨200, true, [CollectorKind.exporterHealth], sn⟩ := by
  cases ho <;> simp [handleMetrics, markCollectionStart, h0]

/-- Witness for claim C8 at both values of the `health` parameter. -/
theorem unknown_section_health_only_witness :
    (handleMetrics false true "unknown-section" "" (fun _ => none)
      freshHealth 1000).1
      = ⟨200, true, [CollectorKind.exporterHealth], "unknown-section"⟩
    ∧ (handleMetrics false false "unknown-section" "" (fun _ => none)
      freshHealth 1000).1
      = ⟨200, true, [CollectorKind.exporterHealth], "unknown-section"⟩ :=
  ⟨unknown_section_health_only true "unknown-section" "" (fun _ => none)
      freshHealth 1000 (by decide),
    unknown_section_health_only false "unknown-section" "" (fun _ => none)
      freshHealth 1000 (by decide)⟩

/-- Claim C10: the client built by `NewNutanix` always has a strictly
positive `maxParallelRequests` — equal to the argument when it is
positive and to the default 10 otherwise — so the NIC fan-out
semaphore sized by this field always has capacity at least 1. -/
theorem newNutanix_positive_parallelism (url u p : String) (m : ℤ) :
    0 < (NewNutanix url u p m).maxParallelRequests
    ∧ (0 < m → (NewNutanix url u p m).maxParallelRequests = m)
    ∧ (m ≤ 0 → (NewNutanix url u p m).maxParallelRequests
        = MAX_PARALLEL_REQUESTS_DEFAULT)
    ∧ 1 ≤ nicSemaphoreCapacity (NewNutanix url u p m) := by
  by_cases hm : m ≤ 0 <;>
    · simp [NewNutanix, nicSemaphoreCapacity,
        MAX_PARALLEL_REQUESTS_DEFAULT, hm]
      try omega

/-- Witness for claim C10 at concrete parallelism arguments 5, 0 and
-3. -/
theorem newNutanix_positive_parallelism_witness :
    (NewNutanix "https://h" "u" "p" 5).maxParallelRequests = 5
    ∧ (NewNutanix "https://h" "u" "p" 0).maxParallelRequests
        = MAX_PARALLEL_REQUESTS_DEFAULT
    ∧ 1 ≤ nicSemaphoreCapacity (NewNutanix "https://h" "u" "p" (-3)) :=
  ⟨(newNutanix_positive_parallelism "https://h" "u" "p" 5).2.1 (by decide),
    (newNutanix_positive_parallelism "https://h" "u" "p" 0).2.2.1
      (by decide),
    (newNutanix_positive_parallelism "https://h" "u" "p" (-3)).2.2.2⟩

end NutanixExporter
